import Mathlib

/-!
Shallow embedding of the SimpleMCPSearchServer repository
(`src/config.ts`, `src/index.ts`, `src/jina-client.ts`, `src/types.ts`).

JavaScript runtime values that flow through the program (parsed JSON
bodies, configuration objects, tool arguments) are modelled by the
inductive type `Json`; property access `o.k` becomes `Json.getField o k`
(`none` plays the role of `undefined`).  External collaborators that are
not code of this repository — the runtime JSON parser `JSON.parse`, the
WHATWG URL validator used by `z.string().url()`, `encodeURIComponent`,
and the network (`fetch`) — are passed in as explicit function
parameters, so every operation of the adapter is a pure function of its
inputs plus those collaborators.
-/

/-- A JavaScript/JSON value.  Objects keep their fields in insertion
order, matching JavaScript object semantics. -/
inductive Json where
  | null : Json
  | bool : Bool → Json
  | num : Int → Json
  | str : String → Json
  | arr : List Json → Json
  | obj : List (String × Json) → Json

/-- First-match field lookup in an object's field list, i.e. JavaScript
property access on the modelled object. -/
def lookupField : List (String × Json) → String → Option Json
  | [], _ => none
  | (k, v) :: fs, name => if k = name then some v else lookupField fs name

/-- JavaScript property access `o[name]`: `none` models `undefined`
(also for access on a non-object value). -/
def Json.getField : Json → String → Option Json
  | Json.obj fs, name => lookupField fs name
  | _, _ => none

/-- JavaScript truthiness of an optional string field (`if (x)` in the
source): `undefined` and the empty string are falsy. -/
def strTruthy : Option String → Bool
  | none => false
  | some s => s ≠ ""

/-- Whether a JavaScript value is falsy (`null`, `false`, `0`, `''`). -/
def Json.falsy : Json → Bool
  | Json.null => true
  | Json.bool b => !b
  | Json.num n => n = 0
  | Json.str s => s = ""
  | _ => false

/-- An outbound HTTP request assembled by the adapter.  `params` models
`url.searchParams`; headers keep insertion order. -/
structure Request where
  url : String
  method : String
  params : List (String × String)
  headers : List (String × String)
  body : Option Json

/-- First-match lookup among a request's headers. -/
def lookupHeader : List (String × String) → String → Option String
  | [], _ => none
  | (k, v) :: hs, name => if k = name then some v else lookupHeader hs name

/-- Value of a named header of a request, `none` when absent. -/
def Request.header (r : Request) (name : String) : Option String :=
  lookupHeader r.headers name

/-- A non-streaming HTTP response as seen by `searchWeb` / `scrapeUrl`:
`ok`/`statusText` from the fetch API, `body` the value produced by
`response.json()`. -/
structure HttpResponse where
  ok : Bool
  statusText : String
  body : Json

/-- A streaming HTTP response as seen by `performDeepSearch`: `chunks`
is the sequence of decoded text chunks delivered by the body reader. -/
structure StreamResponse where
  ok : Bool
  statusText : String
  chunks : List String

/-! ### jina-client.ts: request construction -/

/-- Per `jina-client.ts` (`searchWeb`): GET to the fixed search endpoint
with the query as URL parameter `q`; `Accept` and `X-Respond-With`
headers always, `Authorization` only when `this.apiKey` is truthy,
`X-Site` only when `site` is truthy. -/
structure SearchWebInput where
  query : String
  site : Option String
deriving DecidableEq, Repr

def searchRequest (apiKey : Option String) (input : SearchWebInput) : Request :=
  { url := "https://s.jina.ai/"
    method := "GET"
    params := [("q", input.query)]
    headers :=
      [("Accept", "application/json"), ("X-Respond-With", "no-content")]
        ++ (match apiKey with
            | some k => if k ≠ "" then [("Authorization", "Bearer " ++ k)] else []
            | none => [])
        ++ (match input.site with
            | some s => if s ≠ "" then [("X-Site", s)] else []
            | none => [])
    body := none }

/-- Per `jina-client.ts` (`scrapeUrl`): GET to the reader endpoint with
the percent-encoded target URL appended to the path; `Accept` header
always, `Authorization` only when the API key is truthy.  `encode`
stands for the runtime's `encodeURIComponent`. -/
def scrapeRequest (encode : String → String) (apiKey : Option String)
    (url : String) : Request :=
  { url := "https://r.jina.ai/" ++ encode url
    method := "GET"
    params := []
    headers :=
      [("Accept", "application/json")]
        ++ (match apiKey with
            | some k => if k ≠ "" then [("Authorization", "Bearer " ++ k)] else []
            | none => [])
    body := none }

/-- Input of `performDeepSearch` per `types.ts`
(`PerformDeepSearchSchema`). -/
structure PerformDeepSearchInput where
  query : String
  reasoning_effort : Option String
  no_direct_answer : Option Bool
deriving DecidableEq, Repr

/-- The JSON request body built by `performDeepSearch`
(`JSON.stringify` drops fields whose value is `undefined`). -/
def deepSearchBody (input : PerformDeepSearchInput) : Json :=
  Json.obj
    ([("model", Json.str "jina-deepsearch-v1"),
      ("messages", Json.arr
        [Json.obj [("role", Json.str "user"), ("content", Json.str input.query)]]),
      ("stream", Json.bool true)]
      ++ (match input.reasoning_effort with
          | some e => [("reasoning_effort", Json.str e)]
          | none => [])
      ++ (match input.no_direct_answer with
          | some b => [("no_direct_answer", Json.bool b)]
          | none => []))

/-- Per `jina-client.ts` (`performDeepSearch`): POST to the fixed
chat-completions endpoint; `Content-Type` header always, `Authorization`
only when the API key is truthy. -/
def deepSearchRequest (apiKey : Option String)
    (input : PerformDeepSearchInput) : Request :=
  { url := "https://deepsearch.jina.ai/v1/chat/completions"
    method := "POST"
    params := []
    headers :=
      [("Content-Type", "application/json")]
        ++ (match apiKey with
            | some k => if k ≠ "" then [("Authorization", "Bearer " ++ k)] else []
            | none => [])
    body := some (deepSearchBody input) }

/-! ### jina-client.ts: performDeepSearch stream consumption

The JavaScript string built-ins used by the read loop —
`split('\n')`, `trim()`, `startsWith`, `slice(6)` — are modelled as
structural functions over the string's character list, so that the
loop is executable inside the logic. -/

/-- JavaScript `s.split(sep)` for a one-character separator: splits at
every occurrence, keeping empty segments (`''.split` gives `['']`). -/
def charSplit (sep : Char) : List Char → List (List Char)
  | [] => [[]]
  | c :: rest =>
    match charSplit sep rest with
    | [] => if c = sep then [[], []] else [[c]]
    | seg :: segs =>
      if c = sep then [] :: seg :: segs
      else (c :: seg) :: segs

/-- JavaScript `s.trim()`: strip leading and trailing whitespace. -/
def trimChars (cs : List Char) : List Char :=
  ((cs.dropWhile Char.isWhitespace).reverse.dropWhile Char.isWhitespace).reverse

/-- JavaScript `s.startsWith(p)`, over character lists. -/
def headMatches : List Char → List Char → Bool
  | [], _ => true
  | _ :: _, [] => false
  | p :: ps, c :: cs => p = c && headMatches ps cs

/-- The line splitting `chunk.split('\n').filter(line => line.trim())`
from `performDeepSearch`'s read loop: split on newlines, keep the lines
that are truthy (nonempty) after trimming. -/
def splitChunkLines (chunk : String) : List String :=
  ((charSplit '\n' chunk.data).map String.mk).filter
    (fun line => String.mk (trimChars line.data) ≠ "")

/-- The body of the per-line loop of `performDeepSearch`: on a
`data: `-prefixed line whose payload is not the `[DONE]` sentinel,
attempt `JSON.parse` (the collaborator `parse`); on success the parsed
object replaces the accumulator `lastChunk`, on failure (and on every
other kind of line) the accumulator is kept. -/
def processLine (parse : String → Option Json) (lastChunk : Option Json)
    (line : String) : Option Json :=
  if headMatches "data: ".data line.data then
    let jsonStr := String.mk (line.data.drop 6)
    if jsonStr = "[DONE]" then lastChunk
    else
      match parse jsonStr with
      | some j => some j
      | none => lastChunk
  else lastChunk

/-- One iteration of the reader loop: decode a chunk, split it into
nonblank lines, run the per-line loop over them. -/
def processChunk (parse : String → Option Json) (lastChunk : Option Json)
    (chunk : String) : Option Json :=
  (splitChunkLines chunk).foldl (processLine parse) lastChunk

/-- The whole reader loop: fold over all delivered chunks starting from
`lastChunk = null`. -/
def streamAccum (parse : String → Option Json) (chunks : List String) :
    Option Json :=
  chunks.foldl (processChunk parse) none

/-- Result shape of `performDeepSearch` per `types.ts`
(`PerformDeepSearchResult`): the four fields copied off the final
retained chunk (each may be `undefined`). -/
structure PerformDeepSearchResult where
  content : Option Json
  annotations : Option Json
  visitedURLs : Option Json
  readURLs : Option Json

/-- Projection of the retained last chunk into the returned result
(`return { content: lastChunk.content, ... }`). -/
def extractDeepResult (j : Json) : PerformDeepSearchResult :=
  { content := j.getField "content"
    annotations := j.getField "annotations"
    visitedURLs := j.getField "visitedURLs"
    readURLs := j.getField "readURLs" }

/-- Stream consumption and final check of `performDeepSearch`: the
source's `if (!lastChunk)` is a JavaScript falsiness check, so the call
throws `'No valid response received'` both when no chunk was ever
retained (`lastChunk` still `null`) and when the retained chunk is a
falsy value (`null`, `false`, `0`, `''`); otherwise it returns the
projection of the retained chunk. -/
def consumeStream (parse : String → Option Json) (chunks : List String) :
    Except String PerformDeepSearchResult :=
  match streamAccum parse chunks with
  | none => Except.error "No valid response received"
  | some j =>
    if j.falsy then Except.error "No valid response received"
    else Except.ok (extractDeepResult j)

/-- The full `performDeepSearch` operation: build the one POST request,
send it through the collaborator `fetchFn`, fail with the status text on
a non-ok response, otherwise consume the stream.  The first component
is the list of outbound requests the call performs. -/
def performDeepSearch (parse : String → Option Json) (apiKey : Option String)
    (input : PerformDeepSearchInput) (fetchFn : Request → StreamResponse) :
    List Request × Except String PerformDeepSearchResult :=
  ([deepSearchRequest apiKey input],
   if (fetchFn (deepSearchRequest apiKey input)).ok then
     consumeStream parse (fetchFn (deepSearchRequest apiKey input)).chunks
   else
     Except.error
       ("Deep search failed: " ++ (fetchFn (deepSearchRequest apiKey input)).statusText))

/-- The payload a single line contributes to the accumulator: `some j`
exactly when the line is `data: `-prefixed, its payload is not the
`[DONE]` sentinel, and the payload parses. -/
def dataPayload (parse : String → Option Json) (line : String) : Option Json :=
  if headMatches "data: ".data line.data then
    let jsonStr := String.mk (line.data.drop 6)
    if jsonStr = "[DONE]" then none
    else parse jsonStr
  else none

/-- All nonblank lines of a stream, in delivery order. -/
def streamLines (chunks : List String) : List String :=
  (chunks.map splitChunkLines).flatten

/-- The successfully parsed data payloads of a stream, in order. -/
def retainedPayloads (parse : String → Option Json) (chunks : List String) :
    List Json :=
  (streamLines chunks).filterMap (dataPayload parse)

/-! ### jina-client.ts: searchWeb and scrapeUrl -/

/-- One returned search entry per `types.ts`: exactly the four fields
`title`, `url`, `description`, `date`, each copied from the provider
entry (possibly `undefined`). -/
structure SearchResult where
  title : Option Json
  url : Option Json
  description : Option Json
  date : Option Json

/-- The per-entry mapping of `searchWeb`
(`data.data.map(result => ({title, url, description, date}))`). -/
def mkSearchResult (r : Json) : SearchResult :=
  { title := r.getField "title"
    url := r.getField "url"
    description := r.getField "description"
    date := r.getField "date" }

/-- Response handling of `searchWeb`: non-ok status throws
`'Search failed: <statusText>'`; otherwise `data.data` must be an array
(a non-array makes the JavaScript `.map` call throw a `TypeError`),
whose entries are mapped to the four-field shape. -/
def processSearchResponse (resp : HttpResponse) :
    Except String (List SearchResult) :=
  if resp.ok then
    match resp.body.getField "data" with
    | some (Json.arr rs) => Except.ok (rs.map mkSearchResult)
    | _ => Except.error "TypeError: data.data.map is not a function"
  else Except.error ("Search failed: " ++ resp.statusText)

/-- The full `searchWeb` operation: build the one GET request, send it
through `fetchFn`, process the response.  The first component is the
list of outbound requests the call performs. -/
def searchWeb (apiKey : Option String) (input : SearchWebInput)
    (fetchFn : Request → HttpResponse) :
    List Request × Except String (List SearchResult) :=
  ([searchRequest apiKey input],
   processSearchResponse (fetchFn (searchRequest apiKey input)))

/-- Response handling of `scrapeUrl`: non-ok status throws
`'Failed to read page: <statusText>'`; otherwise the four fields are
extracted, with `description` defaulted to the empty string when falsy
or absent (`data.description || ''`). -/
def processScrapeResponse (resp : HttpResponse) : Except String Json :=
  if resp.ok then
    Except.ok (Json.obj
      [("title", (resp.body.getField "title").getD Json.null),
       ("description",
         match resp.body.getField "description" with
         | some v => if v.falsy then Json.str "" else v
         | none => Json.str ""),
       ("url", (resp.body.getField "url").getD Json.null),
       ("content", (resp.body.getField "content").getD Json.null)])
  else Except.error ("Failed to read page: " ++ resp.statusText)

/-! ### types.ts: zod argument validation -/

/-- Validation of `SearchWebSchema` (`types.ts`): `query` must be a
string, `site` an optional string.  No non-emptiness constraint is
declared on `query`. -/
def parseSearchWebArgs (args : Json) : Except String SearchWebInput :=
  match args.getField "query" with
  | some (Json.str q) =>
    match args.getField "site" with
    | none => Except.ok { query := q, site := none }
    | some (Json.str s) => Except.ok { query := q, site := some s }
    | some _ => Except.error "site: Expected string"
  | _ => Except.error "query: Required string"

/-- Validation of `ScrapeUrlSchema` (`types.ts`): `url` must be a string
accepted by the URL validator (`z.string().url()`; `isValidUrl` stands
for the runtime URL parser the validator relies on). -/
def parseScrapeUrlArgs (isValidUrl : String → Bool) (args : Json) :
    Except String String :=
  match args.getField "url" with
  | some (Json.str u) =>
    if isValidUrl u then Except.ok u else Except.error "url: Invalid url"
  | _ => Except.error "url: Required string"

/-! ### Tool boundary (CallToolRequest handler) -/

/-- Outcome of one tool call at the transport boundary: either the
tool's structured result, or an error envelope (`isError: true`) with a
message; a per-call failure never terminates the process, so there is
no fatal outcome. -/
inductive ToolOutcome (α : Type) where
  | success : α → ToolOutcome α
  | errorEnvelope : String → ToolOutcome α

/-- The catch-all of the CallToolRequest handler: any thrown error is
converted to an error envelope carrying `'Error: <message>'`. -/
def toolBoundary {α : Type} : Except String α → ToolOutcome α
  | Except.ok a => ToolOutcome.success a
  | Except.error m => ToolOutcome.errorEnvelope ("Error: " ++ m)

/-- The scrapeUrl tool call, following the CallToolRequest handler
structure: validate the raw arguments against `ScrapeUrlSchema`; on
validation failure, return an error envelope naming the tool without
invoking the adapter (zero outbound requests); on success invoke the
adapter operation and wrap its result.  The second component is the
list of outbound requests made. -/
def scrapeToolCall (isValidUrl : String → Bool) (encode : String → String)
    (apiKey : Option String) (fetchFn : Request → HttpResponse)
    (args : Json) : ToolOutcome Json × List Request :=
  match parseScrapeUrlArgs isValidUrl args with
  | Except.error e =>
    (ToolOutcome.errorEnvelope ("Error: Invalid arguments for scrapeUrl: " ++ e),
     [])
  | Except.ok u =>
    (toolBoundary (processScrapeResponse (fetchFn (scrapeRequest encode apiKey u))),
     [scrapeRequest encode apiKey u])

/-- The performDeepSearch tool call: invoke the adapter and wrap its
result or failure at the tool boundary. -/
def deepSearchToolCall (parse : String → Option Json) (apiKey : Option String)
    (input : PerformDeepSearchInput) (fetchFn : Request → StreamResponse) :
    ToolOutcome PerformDeepSearchResult × List Request :=
  (toolBoundary (performDeepSearch parse apiKey input fetchFn).2,
   (performDeepSearch parse apiKey input fetchFn).1)

/-! ### config.ts: ConfigSchema and loadConfig -/

/-- The handlers `runHttpServer` registers on the `/mcp` router. -/
inductive McpHandler where
  | mcpRequest : McpHandler
  | methodNotAllowed : McpHandler
deriving DecidableEq, Repr

/-- HTTP request methods reaching the `/mcp` router. -/
inductive HttpMethod where
  | get : HttpMethod
  | post : HttpMethod
  | put : HttpMethod
  | delete : HttpMethod
  | patch : HttpMethod
deriving DecidableEq, Repr

/-- The route table of `runHttpServer` (`index.ts`): `router.post('/')`
is the MCP request handler, `router.get('/')` and `router.delete('/')`
are bound to `handleMethodNotAllowed`; no other method is routed (such
requests fall through to the framework's default handling). -/
def routeMcp : HttpMethod → Option McpHandler
  | HttpMethod.post => some McpHandler.mcpRequest
  | HttpMethod.get => some McpHandler.methodNotAllowed
  | HttpMethod.delete => some McpHandler.methodNotAllowed
  | _ => none

/-- An HTTP status/JSON-body response sent by an express handler. -/
structure StatusResponse where
  status : Int
  body : Json

/-- The fixed response of `handleMethodNotAllowed` (`index.ts`): status
405 with JSON-RPC error body `{code: -32601, message: 'Method not
found'}` and a null id. -/
def methodNotAllowedResponse : StatusResponse :=
  { status := 405
    body := Json.obj
      [("jsonrpc", Json.str "2.0"),
       ("error", Json.obj
         [("code", Json.num (-32601)),
          ("message", Json.str "Method not found")]),
       ("id", Json.null)] }

/-- The fixed response a routed handler sends without consulting the MCP
server: `handleMethodNotAllowed` always sends `methodNotAllowedResponse`;
the MCP request handler delegates to the transport (no fixed response). -/
def handlerFixedResponse : McpHandler → Option StatusResponse
  | McpHandler.methodNotAllowed => some methodNotAllowedResponse
  | McpHandler.mcpRequest => none

/-! ### Concrete instances used to exercise the definitions -/

/-- A concrete stand-in for the runtime JSON parser, used to evaluate
the stream-processing definitions on concrete streams: payload `A` is a
progress chunk, payload `B` the final chunk, everything else is
malformed. -/
def parseStub : String → Option Json
  | "A" => some (Json.obj [("content", Json.str "partial")])
  | "B" => some (Json.obj
      [("content", Json.str "final"),
       ("visitedURLs", Json.arr [Json.str "https://example.com"])])
  | "null" => some Json.null
  | _ => none

/-- A concrete stand-in for the runtime URL validator: accepts exactly
the strings that start with an absolute-URL scheme marker. -/
def urlCheckStub (s : String) : Bool :=
  headMatches "http://".data s.data || headMatches "https://".data s.data

/-- A deep-search input used on concrete runs. -/
def dsInputStub : PerformDeepSearchInput :=
  { query := "rust ownership", reasoning_effort := none, no_direct_answer := none }

/-- A concrete stream: one valid progress chunk, a non-data line, a
malformed data line, the final valid chunk, and the end sentinel. -/
def c1Chunks : List String :=
  ["data: A\nnot-data\n", "data: oops\ndata: B\ndata: [DONE]"]

/-- A concrete stream whose last successfully parsed payload is the
JSON value `null` (overwriting an earlier retained object). -/
def c1NullChunks : List String := ["data: A\ndata: null"]

/-- A concrete stream containing no parseable data payload at all. -/
def c3Chunks : List String :=
  ["data: [DONE]\n", "hello\ndata: oops"]

/-- A concrete stream whose last two parsed data objects are identical. -/
def c8ChunksTwo : List String := ["data: B\n\ndata: B"]

/-- The same stream with only one of the two identical trailing chunks. -/
def c8ChunksOne : List String := ["data: B"]

/-- A provider search entry carrying extra provider-specific fields
(`usage`) beyond the four that are kept. -/
def c5EntryOne : Json :=
  Json.obj
    [("title", Json.str "Rust ownership"),
     ("url", Json.str "https://doc.rust-lang.org/"),
     ("description", Json.str "The ownership chapter"),
     ("date", Json.str "2024-01-01"),
     ("usage", Json.obj [("tokens", Json.num 42)])]

/-- A second provider search entry, without a `date`. -/
def c5EntryTwo : Json :=
  Json.obj
    [("title", Json.str "Borrowing"),
     ("url", Json.str "https://example.org/borrow"),
     ("description", Json.str "Borrowing explained")]

/-- A provider success body with two results plus metering fields. -/
def c5Body : Json :=
  Json.obj
    [("code", Json.num 200),
     ("status", Json.num 20000),
     ("data", Json.arr [c5EntryOne, c5EntryTwo])]

/-- Raw scrapeUrl tool arguments whose `url` is not a valid URL. -/
def c6Args : Json := Json.obj [("url", Json.str "not-a-url")]

/-! ## Shared lemmas about the stream-accumulation loop -/

/-- The per-line loop step, restated through the payload the line
contributes: a retained payload replaces the accumulator, anything else
leaves it unchanged. -/
theorem processLine_eq (parse : String → Option Json) (acc : Option Json)
    (line : String) :
    processLine parse acc line =
      match dataPayload parse line with
      | some j => some j
      | none => acc := by
  unfold processLine dataPayload
  by_cases h : headMatches "data: ".data line.data
  · simp only [if_pos h]
    by_cases h2 : String.mk (line.data.drop 6) = "[DONE]"
    · simp [h2]
    · simp only [if_neg h2]
  · simp [h]

/-- Folding the per-line loop over a list of lines retains exactly the
last payload contributed, falling back to the initial accumulator. -/
theorem foldl_processLine (parse : String → Option Json) (ls : List String) :
    ∀ a : Option Json, ls.foldl (processLine parse) a =
      ((ls.filterMap (dataPayload parse)).getLast?).or a := by
  induction ls with
  | nil => intro a; simp
  | cons l ls ih =>
    intro a
    rw [List.foldl_cons, ih, processLine_eq]
    cases h : dataPayload parse l with
    | none => simp [List.filterMap_cons, h]
    | some j =>
      simp only [List.filterMap_cons, h, List.getLast?_cons]
      cases hx : (ls.filterMap (dataPayload parse)).getLast? <;>
        simp [hx, Option.or]

/-- Folding chunk-by-chunk is the same as folding over the concatenated
nonblank lines of the stream. -/
theorem streamAccum_eq_lines (parse : String → Option Json)
    (chunks : List String) :
    ∀ a : Option Json, chunks.foldl (processChunk parse) a =
      (streamLines chunks).foldl (processLine parse) a := by
  induction chunks with
  | nil => intro a; simp [streamLines]
  | cons c cs ih =>
    intro a
    simp only [List.foldl_cons, streamLines, List.map_cons, List.flatten_cons,
      List.foldl_append]
    exact ih _

/-- The reader loop retains exactly the last successfully parsed data
payload of the stream. -/
theorem streamAccum_retained (parse : String → Option Json)
    (chunks : List String) :
    streamAccum parse chunks = (retainedPayloads parse chunks).getLast? := by
  rw [streamAccum, streamAccum_eq_lines, foldl_processLine, retainedPayloads]
  cases (List.filterMap (dataPayload parse) (streamLines chunks)).getLast? <;> rfl

/-! ## Claim C1 (corrected) -/

/-- Claim C1, counterexample to the claim as stated: the stream
`["data: A\ndata: null"]` contains data lines with valid JSON payloads
and its last successfully parsed payload is the JSON value `null`, yet
`performDeepSearch` does not return that object — the source's final
`if (!lastChunk)` is a JavaScript falsiness check, so a falsy last
payload (here `null`, overwriting the earlier retained object) makes
the call throw `'No valid response received'` instead. -/
theorem deepSearch_null_last_payload_throws :
    (retainedPayloads parseStub c1NullChunks).getLast? = some Json.null
    ∧ performDeepSearch parseStub none dsInputStub
        (fun _ => { ok := true, statusText := "OK", chunks := c1NullChunks }) =
      ([deepSearchRequest none dsInputStub],
       Except.error "No valid response received") :=
  ⟨rfl, rfl⟩

/-- Claim C1, amended: on a deep-search call whose stream contains at
least one successfully parsed `data: ` payload and whose last such
payload is truthy, `performDeepSearch` returns the object parsed from
the last such line — malformed data lines and the `[DONE]` sentinel are
skipped without affecting the retained value or aborting the call — and
the result's `content`, `annotations`, `visitedURLs` and `readURLs`
fields are the projections of that single final object, with no merging
across earlier chunks.  (When the last retained payload is falsy —
`null`, `false`, `0` or `''` — the call instead fails with
`'No valid response received'`.) -/
theorem deepSearch_last_parsed_wins (parse : String → Option Json)
    (apiKey : Option String) (input : PerformDeepSearchInput)
    (fetchFn : Request → StreamResponse) (st : String) (cs : List String)
    (j : Json)
    (hfetch : fetchFn (deepSearchRequest apiKey input) =
      { ok := true, statusText := st, chunks := cs })
    (hlast : (retainedPayloads parse cs).getLast? = some j)
    (htruthy : j.falsy = false) :
    performDeepSearch parse apiKey input fetchFn =
      ([deepSearchRequest apiKey input],
       Except.ok (extractDeepResult j)) := by
  unfold performDeepSearch
  rw [hfetch]
  simp [consumeStream, streamAccum_retained, hlast, htruthy]

/-- Concrete run of `deepSearch_last_parsed_wins`: a stream with a
progress chunk, a non-data line, a malformed data line, a final (truthy)
chunk and the sentinel returns the projection of the final chunk. -/
theorem deepSearch_last_parsed_wins_witness :
    performDeepSearch parseStub none dsInputStub
        (fun _ => { ok := true, statusText := "OK", chunks := c1Chunks }) =
      ([deepSearchRequest none dsInputStub],
       Except.ok (extractDeepResult (Json.obj
         [("content", Json.str "final"),
          ("visitedURLs", Json.arr [Json.str "https://example.com"])]))) :=
  deepSearch_last_parsed_wins parseStub none dsInputStub
    (fun _ => { ok := true, statusText := "OK", chunks := c1Chunks })
    "OK" c1Chunks _ rfl (by rfl) (by rfl)

/-! ## Claim C3 -/

/-- Claim C3: a deep-search call whose stream ends with zero
successfully parsed data objects retained fails with the
`'No valid response received'` error rather than returning a result,
and at the tool boundary this failure becomes a per-call error envelope
(the process is not terminated). -/
theorem deepSearch_empty_stream_error (parse : String → Option Json)
    (apiKey : Option String) (input : PerformDeepSearchInput)
    (fetchFn : Request → StreamResponse) (st : String) (cs : List String)
    (hfetch : fetchFn (deepSearchRequest apiKey input) =
      { ok := true, statusText := st, chunks := cs })
    (hnone : retainedPayloads parse cs = []) :
    (performDeepSearch parse apiKey input fetchFn).2 =
      Except.error "No valid response received"
    ∧ deepSearchToolCall parse apiKey input fetchFn =
        (ToolOutcome.errorEnvelope "Error: No valid response received",
         [deepSearchRequest apiKey input]) := by
  have h2 : (performDeepSearch parse apiKey input fetchFn).2 =
      Except.error "No valid response received" := by
    unfold performDeepSearch
    rw [hfetch]
    simp [consumeStream, streamAccum_retained, hnone]
  refine ⟨h2, ?_⟩
  unfold deepSearchToolCall
  rw [h2]
  rfl

/-- Concrete run of `deepSearch_empty_stream_error`: a stream holding
only the sentinel, a non-data line and a malformed data line yields the
empty-response failure, recovered as an error envelope. -/
theorem deepSearch_empty_stream_error_witness :
    (performDeepSearch parseStub none dsInputStub
        (fun _ => { ok := true, statusText := "OK", chunks := c3Chunks })).2 =
      Except.error "No valid response received"
    ∧ deepSearchToolCall parseStub none dsInputStub
        (fun _ => { ok := true, statusText := "OK", chunks := c3Chunks }) =
        (ToolOutcome.errorEnvelope "Error: No valid response received",
         [deepSearchRequest none dsInputStub]) :=
  deepSearch_empty_stream_error parseStub none dsInputStub
    (fun _ => { ok := true, statusText := "OK", chunks := c3Chunks })
    "OK" c3Chunks rfl (by rfl)

/-! ## Claim C8 -/

/-- Claim C8: deep-search accumulation is idempotent under duplicate
trailing chunks — if one call's stream retains the payloads
`ps ++ [j, j]` and another's retains `ps ++ [j]` (the same stream with
only one of the two identical trailing chunks), `performDeepSearch`
produces the same result for both. -/
theorem deepSearch_dup_trailing_idem (parse : String → Option Json)
    (apiKey : Option String) (input : PerformDeepSearchInput)
    (fetchOne fetchTwo : Request → StreamResponse)
    (stOne stTwo : String) (csOne csTwo : List String)
    (ps : List Json) (j : Json)
    (hOne : fetchOne (deepSearchRequest apiKey input) =
      { ok := true, statusText := stOne, chunks := csOne })
    (hTwo : fetchTwo (deepSearchRequest apiKey input) =
      { ok := true, statusText := stTwo, chunks := csTwo })
    (hpOne : retainedPayloads parse csOne = ps ++ [j, j])
    (hpTwo : retainedPayloads parse csTwo = ps ++ [j]) :
    performDeepSearch parse apiKey input fetchOne =
      performDeepSearch parse apiKey input fetchTwo := by
  have lastOne : (retainedPayloads parse csOne).getLast? = some j := by
    rw [hpOne]
    have : ps ++ [j, j] = (ps ++ [j]) ++ [j] := by simp
    rw [this, List.getLast?_concat]
  have lastTwo : (retainedPayloads parse csTwo).getLast? = some j := by
    rw [hpTwo, List.getLast?_concat]
  unfold performDeepSearch
  rw [hOne, hTwo]
  simp [consumeStream, streamAccum_retained, lastOne, lastTwo]

/-- Concrete run of `deepSearch_dup_trailing_idem`: a stream ending in
two identical parsed chunks gives the same result as the stream with a
single such chunk. -/
theorem deepSearch_dup_trailing_idem_witness :
    performDeepSearch parseStub none dsInputStub
        (fun _ => { ok := true, statusText := "OK", chunks := c8ChunksTwo }) =
      performDeepSearch parseStub none dsInputStub
        (fun _ => { ok := true, statusText := "OK", chunks := c8ChunksOne }) :=
  deepSearch_dup_trailing_idem parseStub none dsInputStub
    (fun _ => { ok := true, statusText := "OK", chunks := c8ChunksTwo })
    (fun _ => { ok := true, statusText := "OK", chunks := c8ChunksOne })
    "OK" "OK" c8ChunksTwo c8ChunksOne []
    (Json.obj
      [("content", Json.str "final"),
       ("visitedURLs", Json.arr [Json.str "https://example.com"])])
    rfl rfl (by rfl) (by rfl)

/-! ## Shared lemmas about header lookup -/

/-- Header lookup distributes over concatenation of header segments. -/
theorem lookupHeader_append (xs ys : List (String × String)) (name : String) :
    lookupHeader (xs ++ ys) name = (lookupHeader xs name).or (lookupHeader ys name) := by
  induction xs with
  | nil => simp [lookupHeader, Option.or]
  | cons p t ih =>
    obtain ⟨k, v⟩ := p
    by_cases hk : k = name <;> simp [lookupHeader, hk, ih, Option.or]

/-! ## Claim C4 -/

/-- Claim C4: for each of the three adapter operations, the outbound
request carries the bearer `Authorization` header exactly when an API
key is configured (a truthy `this.apiKey`), and carries no
`Authorization` header when none is configured. -/
theorem auth_header_iff_api_key (encode : String → String)
    (apiKey : Option String) (input : SearchWebInput) (u : String)
    (dsi : PerformDeepSearchInput) :
    (searchRequest apiKey input).header "Authorization" =
      (if strTruthy apiKey then some ("Bearer " ++ apiKey.getD "") else none)
    ∧ (scrapeRequest encode apiKey u).header "Authorization" =
      (if strTruthy apiKey then some ("Bearer " ++ apiKey.getD "") else none)
    ∧ (deepSearchRequest apiKey dsi).header "Authorization" =
      (if strTruthy apiKey then some ("Bearer " ++ apiKey.getD "") else none) := by
  obtain ⟨q, site⟩ := input
  refine ⟨?_, ?_, ?_⟩ <;>
    cases apiKey with
    | none =>
      cases site with
      | none =>
        simp [searchRequest, scrapeRequest, deepSearchRequest, Request.header,
          strTruthy, lookupHeader_append, lookupHeader, Option.or]
      | some sv =>
        by_cases hs : sv = "" <;>
          simp [searchRequest, scrapeRequest, deepSearchRequest, Request.header,
            strTruthy, lookupHeader_append, lookupHeader, Option.or, hs]
    | some k =>
      by_cases hk : k = "" <;>
        cases site with
        | none =>
          simp [searchRequest, scrapeRequest, deepSearchRequest, Request.header,
            strTruthy, lookupHeader_append, lookupHeader, Option.or, hk]
        | some sv =>
          by_cases hs : sv = "" <;>
            simp [searchRequest, scrapeRequest, deepSearchRequest, Request.header,
              strTruthy, lookupHeader_append, lookupHeader, Option.or, hk, hs]

/-- Concrete runs of `auth_header_iff_api_key`: with a configured key
the three requests carry the bearer header; with no key they carry
none. -/
theorem auth_header_iff_api_key_witness :
    (searchRequest (some "jina-key") { query := "q", site := none }).header
        "Authorization" = some "Bearer jina-key"
    ∧ (searchRequest none { query := "q", site := none }).header
        "Authorization" = none := by
  have hSome := auth_header_iff_api_key (fun s => s) (some "jina-key")
    { query := "q", site := none } "https://example.com" dsInputStub
  have hNone := auth_header_iff_api_key (fun s => s) none
    { query := "q", site := none } "https://example.com" dsInputStub
  exact ⟨hSome.1.trans (by rfl), hNone.1.trans (by rfl)⟩

/-! ## Claim C5 -/

/-- Claim C5: for every search query and every provider success
response whose result list is an array, `searchWeb` issues exactly one
outbound request, the returned list has the same length as the
provider's result list, and every returned entry is the four-field
projection (`title`, `url`, `description`, `date`) of the corresponding
provider entry — all other provider fields are dropped. -/
theorem searchWeb_one_request_four_fields (apiKey : Option String)
    (input : SearchWebInput) (fetchFn : Request → HttpResponse)
    (st : String) (b : Json) (rs : List Json)
    (hfetch : fetchFn (searchRequest apiKey input) =
      { ok := true, statusText := st, body := b })
    (hdata : b.getField "data" = some (Json.arr rs)) :
    searchWeb apiKey input fetchFn =
      ([searchRequest apiKey input], Except.ok (rs.map mkSearchResult))
    ∧ (searchWeb apiKey input fetchFn).1.length = 1
    ∧ (rs.map mkSearchResult).length = rs.length := by
  have h1 : searchWeb apiKey input fetchFn =
      ([searchRequest apiKey input], Except.ok (rs.map mkSearchResult)) := by
    unfold searchWeb
    rw [hfetch]
    simp [processSearchResponse, hdata]
  refine ⟨h1, ?_, ?_⟩
  · rw [h1]
    rfl
  · simp

/-- Concrete run of `searchWeb_one_request_four_fields`: a stub
provider returning two entries (one carrying a `usage` metering field)
yields exactly two four-field entries. -/
theorem searchWeb_one_request_four_fields_witness :
    searchWeb none { query := "rust ownership", site := none }
        (fun _ => { ok := true, statusText := "OK", body := c5Body }) =
      ([searchRequest none { query := "rust ownership", site := none }],
       Except.ok [mkSearchResult c5EntryOne, mkSearchResult c5EntryTwo])
    ∧ [mkSearchResult c5EntryOne, mkSearchResult c5EntryTwo].length = 2 :=
  have h := searchWeb_one_request_four_fields none
    { query := "rust ownership", site := none }
    (fun _ => { ok := true, statusText := "OK", body := c5Body })
    "OK" c5Body [c5EntryOne, c5EntryTwo] rfl (by rfl)
  ⟨h.1, rfl⟩

/-! ## Claim C10 -/

/-- Claim C10: the declared search input schema imposes no
non-emptiness constraint on `query` — the empty-string query passes
argument validation, and `searchWeb` still issues its one outbound
request, whose `q` URL parameter is the empty string. -/
theorem searchWeb_empty_query_validates (apiKey : Option String)
    (fetchFn : Request → HttpResponse) :
    parseSearchWebArgs (Json.obj [("query", Json.str "")]) =
      Except.ok { query := "", site := none }
    ∧ (searchWeb apiKey { query := "", site := none } fetchFn).1 =
        [searchRequest apiKey { query := "", site := none }]
    ∧ (searchRequest apiKey { query := "", site := none }).params = [("q", "")] :=
  ⟨rfl, rfl, rfl⟩

/-! ## Claim C6 -/

/-- Claim C6: when the `url` argument fails URL syntax validation, the
scrape tool call returns a validation error envelope naming the tool
and the failure, and performs zero outbound requests — the adapter
operation is never invoked. -/
theorem scrape_invalid_url_no_request (isValidUrl : String → Bool)
    (encode : String → String) (apiKey : Option String)
    (fetchFn : Request → HttpResponse) (args : Json) (u : String)
    (hu : args.getField "url" = some (Json.str u))
    (hv : isValidUrl u = false) :
    scrapeToolCall isValidUrl encode apiKey fetchFn args =
      (ToolOutcome.errorEnvelope
        "Error: Invalid arguments for scrapeUrl: url: Invalid url", []) := by
  unfold scrapeToolCall parseScrapeUrlArgs
  rw [hu]
  simp [hv]

/-- Concrete run of `scrape_invalid_url_no_request`: calling the scrape
tool with `{url: "not-a-url"}` yields the validation error envelope and
an empty request list. -/
theorem scrape_invalid_url_no_request_witness :
    scrapeToolCall urlCheckStub (fun s => s) none
        (fun _ => { ok := true, statusText := "OK", body := Json.obj [] })
        c6Args =
      (ToolOutcome.errorEnvelope
        "Error: Invalid arguments for scrapeUrl: url: Invalid url", []) :=
  scrape_invalid_url_no_request urlCheckStub (fun s => s) none
    (fun _ => { ok := true, statusText := "OK", body := Json.obj [] })
    c6Args "not-a-url" rfl (by rfl)

/-! ## Claim C7 (corrected) -/

/-- Claim C7, counterexample to the claim as stated: `PUT` is a request
method other than the designated call method `POST`, yet the router
does not route it to the fixed method-not-found handler at all (only
`GET` and `DELETE` are so routed) — it falls through to the framework
default instead of receiving the fixed 405 response. -/
theorem routeMcp_put_unrouted :
    ¬ (routeMcp HttpMethod.put = some McpHandler.methodNotAllowed) := by
  decide

/-- Claim C7, amended: under the HTTP transport, `GET` and `DELETE`
requests to the tool endpoint (the methods the router explicitly binds
besides `POST`) receive the fixed method-not-found response — status
405 with JSON-RPC error body `{code: -32601, message: 'Method not
found'}` and a null id — while `POST` is routed to the MCP request
handler; other methods are not routed to this handler. -/
theorem routeMcp_get_delete_method_not_allowed :
    routeMcp HttpMethod.get = some McpHandler.methodNotAllowed
    ∧ routeMcp HttpMethod.delete = some McpHandler.methodNotAllowed
    ∧ routeMcp HttpMethod.post = some McpHandler.mcpRequest
    ∧ routeMcp HttpMethod.put = none
    ∧ routeMcp HttpMethod.patch = none
    ∧ handlerFixedResponse McpHandler.methodNotAllowed =
        some methodNotAllowedResponse
    ∧ methodNotAllowedResponse.status = 405
    ∧ methodNotAllowedResponse.body.getField "jsonrpc" = some (Json.str "2.0")
    ∧ methodNotAllowedResponse.body.getField "error" =
        some (Json.obj
          [("code", Json.num (-32601)),
           ("message", Json.str "Method not found")])
    ∧ methodNotAllowedResponse.body.getField "id" = some Json.null :=
  ⟨rfl, rfl, rfl, rfl, rfl, rfl, rfl, rfl, rfl, rfl⟩

/-! ## Claim C2 (code bug) -/

